import Mathlib

/-!
Verification of the DadosAbertosBrasil repository's request-building /
response-normalization pipeline and of the `uf.py` static reference table.

The repository sources available are
`DadosAbertosBrasil/camara/_frentes.py` (the `Frente` entity and the
`lista_frentes` function, both thin configuration over the shared core) and
`DadosAbertosBrasil/uf.py` (the `_UF_INFO` static table and the `UF`
aggregator).  The shared core (`_utils.get_data.DAB_Base`,
`_utils.get_data.get_and_format`, `_utils.parse`) is not among the sources,
so those components are modelled from the specification (each such
definition carries a doc comment starting `Modelled from the spec:`).
-/

namespace DAB

/-- JSON values, the decoded response trees handled by the pipeline.
`date` is the canonical date representation produced by date coercion
(year, month, day); it never occurs in a raw envelope. -/
inductive JSON where
  | null : JSON
  | bool (b : Bool) : JSON
  | num (n : Int) : JSON
  | str (s : String) : JSON
  | arr (elems : List JSON) : JSON
  | obj (fields : List (String × JSON)) : JSON
  | date (y m d : Nat) : JSON
deriving Repr

/-- The error taxonomy of the spec (§7): transport failure, missing unpack
key (with the key and the path walked so far), missing marker field (with
the requested identifier), and parameter-validation failure (with the
offending parameter's name). -/
inductive DABError where
  | transportError : DABError
  | malformedResponse (missingKey : String) (path : List String) : DABError
  | resourceNotFound (identifier : String) : DABError
  | invalidParameter (param : String) : DABError
deriving Repr, DecidableEq

/-- First value bound to `key` in a JSON object's field list
(Python `dict` access, insertion order preserved). -/
def lookupField (key : String) : List (String × JSON) → Option JSON
  | [] => none
  | (k, v) :: rest => if k = key then some v else lookupField key rest

/-- Modelled from the spec: the descent loop of the Envelope Unpacker
(§4.1, code in the missing `_utils.get_data`).  Walks `raw` descending one
key per entry of `keys`, in order; each descent must find that key present
in the current mapping, else the walk fails with `MalformedResponseError`
carrying the missing key and the path walked so far. -/
def descend : JSON → List String → List String → Except DABError JSON
  | v, [], _ => .ok v
  | .obj fields, key :: rest, path =>
      match lookupField key fields with
      | some v => descend v rest (path ++ [key])
      | none => .error (.malformedResponse key path)
  | _, key :: _, path => .error (.malformedResponse key path)

/-- Shape test used to compute `is_list` (§4.1): the runtime shape of the
final payload, sequence versus single mapping. -/
def JSON.isList : JSON → Bool
  | .arr _ => true
  | _ => false

/-- Modelled from the spec: `unpack` of the Envelope Unpacker (§4.1, code
in the missing `_utils.get_data`).  Descends through `unpack_keys`; then,
when the error-check is requested (`error_key = some _`) and the resulting
payload is a single mapping, verifies the marker field is present in it,
else fails with `ResourceNotFoundError` carrying the requested
identifier.  Returns the payload and its runtime shape. -/
def unpack (raw : JSON) (unpack_keys : List String) (error_key : Option String)
    (identifier : String) : Except DABError (JSON × Bool) := do
  let payload ← descend raw unpack_keys []
  match error_key, payload with
  | some ek, .obj fields =>
      if (lookupField ek fields).isSome then
        .ok (payload, payload.isList)
      else
        .error (.resourceNotFound identifier)
  | _, _ => .ok (payload, payload.isList)

/-- First key of `keys` that the descent through `v` fails to find, if
any (`none` when the whole walk succeeds). -/
def firstMissing : JSON → List String → Option String
  | _, [] => none
  | .obj fields, key :: rest =>
      match lookupField key fields with
      | some v => firstMissing v rest
      | none => some key
  | _, key :: _ => some key

/-- True when `cs` is a nonempty run of decimal digits. -/
def allDigits (cs : List Char) : Bool :=
  cs.length > 0 && cs.all Char.isDigit

/-- Decimal value of a digit run. -/
def digitsToNat (cs : List Char) : Nat :=
  cs.foldl (fun acc c => acc * 10 + (c.toNat - 48)) 0

/-- Modelled from the spec: parse of a date-like string into the canonical
date representation (§4.2, code in the missing `_utils.get_data`).  Accepts
the upstream ISO form `YYYY-MM-DD`; returns `none` on anything else. -/
def tryParseDate (s : String) : Option (Nat × Nat × Nat) :=
  match s.toList.splitOn '-' with
  | [y, m, d] =>
      if allDigits y && allDigits m && allDigits d then
        let mv := digitsToNat m
        let dv := digitsToNat d
        if 1 ≤ mv && mv ≤ 12 && 1 ≤ dv && dv ≤ 31 then
          some (digitsToNat y, mv, dv)
        else none
      else none
  | _ => none

/-- Modelled from the spec: date coercion of one value (§4.2).  A parseable
string becomes the canonical date; an unparseable value becomes a
null/absent date — never an exception. -/
def coerceDate (v : JSON) : JSON :=
  match v with
  | .str s =>
      match tryParseDate s with
      | some (y, m, d) => .date y m d
      | none => .null
  | _ => .null

/-- Modelled from the spec: the Tabular Normalizer on one record (§4.2,
code in the missing `_utils.get_data`).  Projects only the fields present
in `rename_map`'s domain (unknown fields are silently dropped), renames
each retained field, emits fields in `rename_map` insertion order; when
`include_url` is false drops every field whose renamed name is in
`url_columns`, regardless of date-column status; otherwise coerces fields
whose renamed name is in `date_columns`. -/
def normalizeRecord (record : List (String × JSON)) (rename_map : List (String × String))
    (date_columns url_columns : List String) (include_url : Bool) :
    List (String × JSON) :=
  rename_map.filterMap fun p =>
    match lookupField p.1 record with
    | none => none
    | some v =>
        if !include_url && url_columns.contains p.2 then
          none
        else if date_columns.contains p.2 then
          some (p.2, coerceDate v)
        else
          some (p.2, v)

/-- Modelled from the spec: the Tabular Normalizer on a record sequence
with no index column (§4.2). -/
def normalizeRecords (records : List (List (String × JSON)))
    (rename_map : List (String × String)) (date_columns url_columns : List String)
    (include_url : Bool) : List (List (String × JSON)) :=
  records.map fun r => normalizeRecord r rename_map date_columns url_columns include_url

mutual

/-- Structural equality of JSON values (Python `==` on decoded JSON). -/
def jsonBEq : JSON → JSON → Bool
  | .null, .null => true
  | .bool a, .bool b => a == b
  | .num a, .num b => a == b
  | .str a, .str b => a == b
  | .date y m d, .date y2 m2 d2 => y == y2 && m == m2 && d == d2
  | .arr xs, .arr ys => jsonListBEq xs ys
  | .obj xs, .obj ys => jsonFieldsBEq xs ys
  | _, _ => false

/-- Structural equality on JSON sequences. -/
def jsonListBEq : List JSON → List JSON → Bool
  | [], [] => true
  | x :: xs, y :: ys => jsonBEq x y && jsonListBEq xs ys
  | _, _ => false

/-- Structural equality on JSON objects' field lists. -/
def jsonFieldsBEq : List (String × JSON) → List (String × JSON) → Bool
  | [], [] => true
  | (k, v) :: xs, (k2, v2) :: ys => k == k2 && jsonBEq v v2 && jsonFieldsBEq xs ys
  | _, _ => false

end

/-- The tabular result: a plain record sequence, or a mapping keyed by the
promoted index column when one is given. -/
inductive TabResult where
  | rows (rs : List (List (String × JSON))) : TabResult
  | keyed (m : List (JSON × List (String × JSON))) : TabResult
deriving Repr

/-- Modelled from the spec: index promotion (§4.2).  Restructures the
sequence into a mapping keyed by the index column's value; later entries
silently overwrite earlier ones (last-wins), realised here by keeping the
last binding for each key. -/
def indexBy (col : String) (rows : List (List (String × JSON))) :
    List (JSON × List (String × JSON)) :=
  rows.foldl
    (fun acc r =>
      match lookupField col r with
      | some k => (acc.filter fun p => !(jsonBEq p.1 k)) ++ [(k, r)]
      | none => acc)
    []

/-- Modelled from the spec: the full Tabular Normalizer contract (§4.2). -/
def normalize (records : List (List (String × JSON)))
    (rename_map : List (String × String)) (date_columns url_columns : List String)
    (include_url : Bool) (index_column : Option String) : TabResult :=
  match index_column with
  | none => .rows (normalizeRecords records rename_map date_columns url_columns include_url)
  | some c => .keyed (indexBy c (normalizeRecords records rename_map date_columns url_columns include_url))

/-- The caller-selected output mode (§3): `dataframe` is the tabular
shape, `json` the verbatim raw shape (the source's `formato` literal). -/
inductive Formato where
  | dataframe : Formato
  | json : Formato
deriving Repr, DecidableEq

/-- The value returned to the caller: the verbatim unpacked payload (raw
mode) or the tabular result. -/
inductive Output where
  | raw (payload : JSON) : Output
  | tab (t : TabResult) : Output

/-- A list payload as a record sequence: each element must be a mapping. -/
def asRecords : JSON → List (List (String × JSON))
  | .arr elems =>
      elems.filterMap fun e =>
        match e with
        | .obj fields => some fields
        | _ => none
  | .obj fields => [fields]
  | _ => []

/-- Modelled from the spec: `get_and_format` of the missing
`_utils.get_data`, the orchestration of Unpacker, Normalizer and Result
Selector (§4.3, §4.4) applied to an already-fetched raw envelope.  When
`formato` is `json` the Tabular Normalizer step is skipped entirely and
the unpacked payload is returned verbatim; `url`/`index` act only on the
tabular path, `index` promoting the `codigo` column. -/
def get_and_format (raw : JSON) (unpack_keys : List String)
    (cols_to_rename : List (String × String)) (cols_to_date url_cols : List String)
    (url : Bool) (index : Bool) (formato : Formato) : Except DABError Output := do
  let (payload, _) ← unpack raw unpack_keys none ""
  match formato with
  | .json => .ok (.raw payload)
  | .dataframe =>
      .ok (.tab (normalize (asRecords payload) cols_to_rename cols_to_date url_cols url
        (if index then some "codigo" else none)))

/-- One HTTP GET request: upstream API id, resource path, query
parameters (§6; only integer-valued parameters occur in `_frentes.py`). -/
structure Request where
  api : String
  path : List String
  params : List (String × Int)
deriving Repr, DecidableEq

/-- The Transport collaborator (§2): one request, one decoded JSON
response or a transport error. -/
def Transport := Request → Except DABError JSON

/-- Modelled from the spec: `DAB_Base.__init__` of the missing
`_utils.get_data` — binds a fixed resource path and attribute map to the
pipeline, performing one fetch-and-unpack call (error check requested)
and exposing the named attributes read off the payload. -/
def DAB_Base_init (transport : Transport) (api : String) (path : List String)
    (unpack_keys : List String) (error_key : String)
    (atributos : List (String × List String)) (identifier : String) :
    Except DABError (JSON × List (String × JSON)) := do
  let raw ← transport ⟨api, path, []⟩
  let (payload, _) ← unpack raw unpack_keys (some error_key) identifier
  let attrs := atributos.filterMap fun (name, jpath) =>
    (descend payload jpath []).toOption.map fun v => (name, v)
  .ok (payload, attrs)

/-- The attribute-name-to-JSON-path map of `Frente.__init__`
(`camara/_frentes.py`, lines 63–75). -/
def Frente.atributos : List (String × List String) :=
  [("coordenador", ["coordenador"]),
   ("documento", ["urlDocumento"]),
   ("email", ["email"]),
   ("id_sitacao", ["idSituacao"]),
   ("keywords", ["keywords"]),
   ("legislatura", ["idLegislatura"]),
   ("situacao", ["situacao"]),
   ("telefone", ["telefone"]),
   ("titulo", ["titulo"]),
   ("uri", ["uri"]),
   ("website", ["urlWebsite"])]

/-- `Frente.__init__` (`camara/_frentes.py`, lines 61–83): one
fetch-and-unpack with `unpack_keys=["dados"]` and `error_key="titulo"`. -/
def Frente.init (transport : Transport) (cod : Int) :
    Except DABError (JSON × List (String × JSON)) :=
  DAB_Base_init transport "camara" ["frentes", toString cod] ["dados"] "titulo"
    Frente.atributos (toString cod)

/-- The column rename map of `Frente.membros`
(`camara/_frentes.py`, lines 127–141). -/
def Frente.membrosColsToRename : List (String × String) :=
  [("id", "codigo"),
   ("uri", "uri"),
   ("nome", "nome"),
   ("siglaPartido", "partido"),
   ("uriPartido", "partido_uri"),
   ("siglaUf", "uf"),
   ("idLegislatura", "legislatura"),
   ("urlFoto", "foto"),
   ("email", "email"),
   ("titulo", "titulo"),
   ("codTitulo", "titulo_codigo"),
   ("dataInicio", "data_inicio"),
   ("dataFim", "data_fim")]

/-- `Frente.membros` (`camara/_frentes.py`, lines 91–153): fetches the
member list and hands it to the pipeline with the configured rename map,
date columns `["data_inicio", "data_fim"]` and URL columns
`["uri", "partido_uri", "foto", "email"]`. -/
def Frente.membros (transport : Transport) (cod : Int) (url : Bool) (index : Bool)
    (formato : Formato) : Except DABError Output := do
  let raw ← transport ⟨"camara", ["frentes", toString cod, "membros"], []⟩
  get_and_format raw ["dados"] Frente.membrosColsToRename
    ["data_inicio", "data_fim"] ["uri", "partido_uri", "foto", "email"]
    url index formato

/-- The column rename map of `lista_frentes`
(`camara/_frentes.py`, lines 206–211). -/
def listaFrentesColsToRename : List (String × String) :=
  [("id", "codigo"),
   ("uri", "uri"),
   ("titulo", "titulo"),
   ("idLegislatura", "legislatura")]

/-- `lista_frentes` (`camara/_frentes.py`, lines 156–224).  The
`@validate_call` / `PositiveInt` guards are modelled from the spec:
caller-supplied values failing validation (non-positive `pagina` or
`legislatura`) fail with `InvalidParameterError` before any transport
call.  On the valid path: build params (`pagina` first, `idLegislatura`
when given), fetch, and hand the envelope to the pipeline with date
columns `["data_inicio", "date_fim"]` (the source's literal, including
the `date_fim` typo) and URL columns `["uri"]`. -/
def lista_frentes (transport : Transport) (legislatura : Option Int) (pagina : Int)
    (url : Bool) (index : Bool) (formato : Formato) : Except DABError Output :=
  if pagina ≤ 0 then
    .error (.invalidParameter "pagina")
  else if (match legislatura with | some l => decide (l ≤ 0) | none => false) then
    .error (.invalidParameter "legislatura")
  else do
    let params := [("pagina", pagina)] ++
      (match legislatura with | some l => [("idLegislatura", l)] | none => [])
    let raw ← transport ⟨"camara", ["frentes"], params⟩
    get_and_format raw ["dados"] listaFrentesColsToRename
      ["data_inicio", "date_fim"] ["uri"] url index formato

/-! ## `uf.py`: the static `_UF_INFO` table and the `UF` aggregator -/

/-- Python values occurring in the `_UF_INFO` literal: `None`, booleans,
ints, floats (exact decimal literals, embedded as rationals), strings and
sets of strings. -/
inductive PyVal where
  | none : PyVal
  | bool (b : Bool) : PyVal
  | int (n : Int) : PyVal
  | float (q : ℚ) : PyVal
  | str (s : String) : PyVal
  | strset (elems : List String) : PyVal
deriving Repr, DecidableEq

/-- First value bound to `key` in an attribute list. -/
def lookupAttr (key : String) : List (String × PyVal) → Option PyVal
  | [] => Option.none
  | (k, v) :: rest => if k = key then some v else lookupAttr key rest

/-- The static `_UF_INFO` table (`uf.py`, lines 24–385), transcribed
entry by entry in source order with each entry's fields in source order. -/
def UF_INFO : List (String × List (String × PyVal)) :=
  [("BR",
    [("nome", .str "Brasil"), ("cod", .int 1), ("area", .float 8510295.914),
     ("capital", .str "Brasília"), ("extinto", .bool false),
     ("gentilico", .strset ["brasileiro", "brasileira"]),
     ("lema", .str "Ordem e Progresso"), ("regiao", .none),
     ("governador", .str "Jair Bolsonaro"), ("vice_governador", .str "Hamilton Mourão")]),
   ("AC",
    [("nome", .str "Acre"), ("cod", .int 12), ("area", .float 164122.2),
     ("capital", .str "Rio Branco"), ("extinto", .bool false),
     ("gentilico", .strset ["acriano", "acriana", "acreano", "acreana"]),
     ("lema", .str "Nec Luceo Pluribus Impar"), ("regiao", .str "Norte"),
     ("governador", .str "Gladson Cameli"), ("vice_governador", .str "Major Rocha")]),
   ("AL",
    [("nome", .str "Alagoas"), ("cod", .int 27), ("area", .float 27767.7),
     ("capital", .str "Maceió"), ("extinto", .bool false),
     ("gentilico", .strset ["alagoano", "alagoana"]),
     ("lema", .str "Ad Bonum Et Prosperitatem"), ("regiao", .str "Nordeste"),
     ("governador", .str "Renan Filho"), ("vice_governador", .none)]),
   ("AM",
    [("nome", .str "Amazonas"), ("cod", .int 13), ("area", .float 1570745.7),
     ("capital", .str "Manaus"), ("extinto", .bool false),
     ("gentilico", .strset ["amazonense"]),
     ("lema", .none), ("regiao", .str "Norte"),
     ("governador", .str "Wilson Lima"), ("vice_governador", .str "Carlos Almeida")]),
   ("AP",
    [("nome", .str "Amapá"), ("cod", .int 16), ("area", .float 142814.6),
     ("capital", .str "Macapá"), ("extinto", .bool false),
     ("gentilico", .strset ["amapaense"]),
     ("lema", .str "Aqui começa o Brasil"), ("regiao", .str "Norte"),
     ("governador", .str "Waldez Góes"), ("vice_governador", .str "Jaime Nunes")]),
   ("BA",
    [("nome", .str "Bahia"), ("cod", .int 29), ("area", .float 564692.7),
     ("capital", .str "Salvador"), ("extinto", .bool false),
     ("gentilico", .strset ["baiano, baiana"]),
     ("lema", .str "Per Ardua Surgo"), ("regiao", .str "Nordeste"),
     ("governador", .str "Rui Costa"), ("vice_governador", .str "João Leão")]),
   ("CE",
    [("nome", .str "Ceará"), ("cod", .int 23), ("area", .float 148825.6),
     ("capital", .str "Fortaleza"), ("extinto", .bool false),
     ("gentilico", .strset ["cearense"]),
     ("lema", .str "Terra da Luz"), ("regiao", .str "Nordeste"),
     ("governador", .str "Camilo Santana"), ("vice_governador", .str "Izolda Cela")]),
   ("DF",
    [("nome", .str "Distrito Federal"), ("cod", .int 53), ("area", .float 5822.1),
     ("capital", .str "Brasília"), ("extinto", .bool false),
     ("gentilico", .strset ["brasiliense", "candango"]),
     ("lema", .str "Ventvris Ventis"), ("regiao", .str "Centro-Oeste"),
     ("governador", .str "Ibaneis Rocha"), ("vice_governador", .str "Paco Britto")]),
   ("ES",
    [("nome", .str "Espirito Santo"), ("cod", .int 32), ("area", .float 46077.5),
     ("capital", .str "Vitória"), ("extinto", .bool false),
     ("gentilico", .strset ["capixaba", "espírito-santense"]),
     ("lema", .str "Trabalha e Confia"), ("regiao", .str "Sudeste"),
     ("governador", .str "Renato Casagrande"), ("vice_governador", .str "Jacqueline Moraes")]),
   ("FN",
    [("nome", .str "Fernando de Noronha"), ("cod", .int 20), ("area", .float 18.609),
     ("capital", .str "Fernando de Noronha"), ("extinto", .bool true),
     ("gentilico", .strset ["noronhense"]),
     ("lema", .none), ("regiao", .str "Nordeste"),
     ("governador", .none), ("vice_governador", .none)]),
   ("GB",
    [("nome", .str "Guanabara"), ("cod", .int 34), ("area", .int 1356),
     ("capital", .str "Rio de Janeiro"), ("extinto", .bool true),
     ("gentilico", .none),
     ("lema", .none), ("regiao", .str "Sudeste"),
     ("governador", .none), ("vice_governador", .none)]),
   ("GO",
    [("nome", .str "Goiás"), ("cod", .int 52), ("area", .float 340086.7),
     ("capital", .str "Goiânia"), ("extinto", .bool false),
     ("gentilico", .strset ["goiano", "goiana"]),
     ("lema", .str "Terra Querida, Fruto da Vida"), ("regiao", .str "Centro-Oeste"),
     ("governador", .str "Ronaldo Caiado"), ("vice_governador", .str "Lincoln Tejota")]),
   ("MA",
    [("nome", .str "Maranhão"), ("cod", .int 21), ("area", .float 331983.3),
     ("capital", .str "São Luís"), ("extinto", .bool false),
     ("gentilico", .strset ["maranhense"]),
     ("lema", .none), ("regiao", .str "Nordeste"),
     ("governador", .str "Flávio Dino"), ("vice_governador", .str "Carlos Brandão")]),
   ("MG",
    [("nome", .str "Minas Gerais"), ("cod", .int 31), ("area", .float 586528.3),
     ("capital", .str "Belo Horizonte"), ("extinto", .bool false),
     ("gentilico", .strset ["mineiro", "mineira"]),
     ("lema", .str "Libertas Quæ Sera Tamen"), ("regiao", .str "Sudeste"),
     ("governador", .str "Romeu Zema"), ("vice_governador", .str "Paulo Brant")]),
   ("MT",
    [("nome", .str "Mato Grosso"), ("cod", .int 51), ("area", .float 903357.9),
     ("capital", .str "Cuiabá"), ("extinto", .bool false),
     ("gentilico", .strset ["mato-grossense"]),
     ("lema", .str "Virtute Plusquam Auro"), ("regiao", .str "Centro-Oeste"),
     ("governador", .str "Mauro Mendes"), ("vice_governador", .str "Otaviano Pivetta")]),
   ("MS",
    [("nome", .str "Mato Grosso do Sul"), ("cod", .int 50), ("area", .float 357125.0),
     ("capital", .str "Campo Grande"), ("extinto", .bool false),
     ("gentilico", .strset ["sul-mato-grossense", "mato-grossense-do-sul"]),
     ("lema", .none), ("regiao", .str "Centro-Oeste"),
     ("governador", .str "Azambuja"), ("vice_governador", .str "Murilo Zauith")]),
   ("PA",
    [("nome", .str "Pará"), ("cod", .int 15), ("area", .float 1247689.5),
     ("capital", .str "Belém"), ("extinto", .bool false),
     ("gentilico", .strset ["paraense"]),
     ("lema", .none), ("regiao", .str "Norte"),
     ("governador", .str "Helder Barbalho"), ("vice_governador", .none)]),
   ("PB",
    [("nome", .str "Paraíba"), ("cod", .int 25), ("area", .float 56439.8),
     ("capital", .str "João Pessoa"), ("extinto", .bool false),
     ("gentilico", .strset ["paraibano", "paraibana"]),
     ("lema", .none), ("regiao", .str "Nordeste"),
     ("governador", .str "João Azevêdo"), ("vice_governador", .str "Lígia Feliciano")]),
   ("PE",
    [("nome", .str "Pernambuco"), ("cod", .int 26), ("area", .float 98311.6),
     ("capital", .str "Recife"), ("extinto", .bool false),
     ("gentilico", .strset ["pernambucano", "pernambucana"]),
     ("lema", .str "Ego Sum Qui Fortissimum Et Leads"), ("regiao", .str "Nordeste"),
     ("governador", .str "Paulo Câmara"), ("vice_governador", .str "Luciana Santos")]),
   ("PI",
    [("nome", .str "Piauí"), ("cod", .int 22), ("area", .float 251529.2),
     ("capital", .str "Teresina"), ("extinto", .bool false),
     ("gentilico", .strset ["piauiense"]),
     ("lema", .str "Impavidum Ferient Ruinae"), ("regiao", .str "Nordeste"),
     ("governador", .str "Wellington Dias"), ("vice_governador", .str "Regina Sousa")]),
   ("PR",
    [("nome", .str "Paraná"), ("cod", .int 41), ("area", .float 199314.9),
     ("capital", .str "Curitiba"), ("extinto", .bool false),
     ("gentilico", .strset ["paranaense"]),
     ("lema", .none), ("regiao", .str "Sul"),
     ("governador", .str "Ratinho Júnior"), ("vice_governador", .str "Darci Piana")]),
   ("RJ",
    [("nome", .str "Rio de Janeiro"), ("cod", .int 33), ("area", .float 43696.1),
     ("capital", .str "Rio de Janeiro"), ("extinto", .bool false),
     ("gentilico", .strset ["fluminense"]),
     ("lema", .str "Recete Rem Pvblicam Gerere"), ("regiao", .str "Sudeste"),
     ("governador", .str "Cláudio Castro"), ("vice_governador", .none)]),
   ("RO",
    [("nome", .str "Rondônia"), ("cod", .int 11), ("area", .float 237576.2),
     ("capital", .str "Porto Velho"), ("extinto", .bool false),
     ("gentilico", .strset ["rondoniense", "rondoniano", "rondoniana"]),
     ("lema", .none), ("regiao", .str "Norte"),
     ("governador", .str "Marcos Rocha"), ("vice_governador", .str "Zé Jodan")]),
   ("RN",
    [("nome", .str "Rio Grande do Norte"), ("cod", .int 24), ("area", .float 52796.8),
     ("capital", .str "Natal"), ("extinto", .bool false),
     ("gentilico", .strset ["potiguar", "norte-rio-grandense", "rio-grandense-do-norte"]),
     ("lema", .none), ("regiao", .str "Nordeste"),
     ("governador", .str "Fátima Bezerra"), ("vice_governador", .str "Antenor Roberto")]),
   ("RR",
    [("nome", .str "Roraima"), ("cod", .int 14), ("area", .float 224299.0),
     ("capital", .str "Boa Vista"), ("extinto", .bool false),
     ("gentilico", .strset ["roraimense"]),
     ("lema", .str "Amazônia: Patrimônio dos Brasileiros"), ("regiao", .str "Norte"),
     ("governador", .str "Antonio Denarium"), ("vice_governador", .str "Frutuoso Lins")]),
   ("RS",
    [("nome", .str "Rio Grande do Sul"), ("cod", .int 43), ("area", .float 281748.5),
     ("capital", .str "Porto Alegre"), ("extinto", .bool false),
     ("gentilico", .strset ["gaúcho", "gaúcha", "sul-rio-grandense", "rio-grandense-do-sul"]),
     ("lema", .str "Liberdade, Igualdade, Humanidade"), ("regiao", .str "Sul"),
     ("governador", .str "Eduardo Leite"), ("vice_governador", .str "Ranolfo Vieira Júnior")]),
   ("SC",
    [("nome", .str "Santa Catarina"), ("cod", .int 42), ("area", .float 95346.2),
     ("capital", .str "Florianópolis"), ("extinto", .bool false),
     ("gentilico", .strset ["catarinense", "barriga-verde"]),
     ("lema", .none), ("regiao", .str "Sul"),
     ("governador", .str "Carlos Moisés"), ("vice_governador", .str "Daniela Reinehr")]),
   ("SE",
    [("nome", .str "Sergipe"), ("cod", .int 28), ("area", .float 21910.3),
     ("capital", .str "Aracaju"), ("extinto", .bool false),
     ("gentilico", .strset ["sergipano", "sergipana", "sergipense", "serigy", "aperipê"]),
     ("lema", .str "Sub Lege Libertas"), ("regiao", .str "Nordeste"),
     ("governador", .str "Belivaldo Chagas"), ("vice_governador", .str "Eliane Aquino")]),
   ("SP",
    [("nome", .str "São Paulo"), ("cod", .int 35), ("area", .float 248209.4),
     ("capital", .str "São Paulo"), ("extinto", .bool false),
     ("gentilico", .strset ["paulista"]),
     ("lema", .str "Pro Brasilia Fiant Eximia"), ("regiao", .str "Sudeste"),
     ("governador", .str "João Doria"), ("vice_governador", .str "Rodrigo Garcia")]),
   ("TO",
    [("nome", .str "Tocantins"), ("cod", .int 17), ("area", .float 277620.9),
     ("capital", .str "Palmas"), ("extinto", .bool false),
     ("gentilico", .strset ["tocantinense"]),
     ("lema", .str "Co Yvy Ore Retama"), ("regiao", .str "Norte"),
     ("governador", .str "Mauro Carlesse"), ("vice_governador", .str "Wanderlei Barbosa")])]

/-- First entry bound to `sigla` in the `_UF_INFO` table. -/
def lookupInfo (sigla : String) : List (String × List (String × PyVal)) →
    Option (List (String × PyVal))
  | [] => Option.none
  | (k, e) :: rest => if k = sigla then some e else lookupInfo sigla rest

/-- A constructed `UF` object: the normalized sigla plus the attribute bag
copied field by field from the matching `_UF_INFO` entry
(`uf.py`, lines 451–454, the `setattr` loop). -/
structure UFObj where
  sigla : String
  attrs : List (String × PyVal)
deriving Repr, DecidableEq

/-- `UF.__init__` (`uf.py`, lines 451–454).  The sigla normalization
(`parse.uf(uf=uf, extintos=True)`, in the missing `_utils.parse`) is taken
as already performed: construction succeeds exactly when the normalized
sigla is a key of the table, and then sets `sigla` plus one attribute per
field of the entry. -/
def UF.init (sigla : String) : Option UFObj :=
  (lookupInfo sigla UF_INFO).map fun entry => ⟨sigla, entry⟩

/-- `self.extinto` of a constructed `UF`.  The table invariant (see the
theorem for claim C10) guarantees the attribute is present and Boolean;
the fallback `false` is never reached on constructed objects. -/
def UFObj.extinto (u : UFObj) : Bool :=
  match lookupAttr "extinto" u.attrs with
  | some (.bool b) => b
  | _ => false

/-- `self.cod` of a constructed `UF`; same remark as for `extinto`. -/
def UFObj.cod (u : UFObj) : Int :=
  match lookupAttr "cod" u.attrs with
  | some (.int n) => n
  | _ => 0

/-- The remote collaborator calls a `UF` method can issue; a method's
outcome is modelled as the first remote call of its body (external
collaborators `ibge.populacao`, `camara.lista_deputados`, `ibge.Galeria`,
`favoritos.geojson`, `ibge.Historia`, `ibge.malha`,
`senado.lista_senadores`). -/
inductive RemoteCall where
  | populacao (localidade : Int) : RemoteCall
  | lista_deputados (uf : String) : RemoteCall
  | galeria (localidade : Int) : RemoteCall
  | geojson (uf : String) : RemoteCall
  | historia (localidade : Int) : RemoteCall
  | malha (localidade : Int) : RemoteCall
  | lista_senadores (uf : String) : RemoteCall
deriving Repr, DecidableEq

instance : DecidableEq (Except String RemoteCall)
  | .error x, .error y =>
      if h : x = y then .isTrue (h ▸ rfl)
      else .isFalse fun c => h (Except.error.inj c)
  | .error _, .ok _ => .isFalse fun c => Except.noConfusion c
  | .ok _, .error _ => .isFalse fun c => Except.noConfusion c
  | .ok x, .ok y =>
      if h : x = y then .isTrue (h ▸ rfl)
      else .isFalse fun c => h (Except.ok.inj c)

/-- `UF.densidade` (`uf.py`, lines 554–558): extinct UFs raise
`DAB_UFError`; otherwise the population is fetched for `self.cod` (the
subsequent division by `self.area` happens after the remote call and is
outside this model). -/
def UFObj.densidade (u : UFObj) : Except String RemoteCall :=
  if u.extinto then
    .error "Método `densidade` indisponível para UFs extintas."
  else
    .ok (.populacao u.cod)

/-- `UF.deputados` (`uf.py`, lines 586–588). -/
def UFObj.deputados (u : UFObj) : Except String RemoteCall :=
  if u.extinto then
    .error "Método `deputados` indisponível para UFs extintas."
  else
    .ok (.lista_deputados u.sigla)

/-- `UF.galeria` (`uf.py`, lines 619–621). -/
def UFObj.galeria (u : UFObj) : Except String RemoteCall :=
  if u.extinto then
    .error "Método `galeria` indisponível para UFs extintas."
  else
    .ok (.galeria u.cod)

/-- `UF.geojson` (`uf.py`, lines 671–673). -/
def UFObj.geojson (u : UFObj) : Except String RemoteCall :=
  if u.extinto then
    .error "Método `geojson` indisponível para UFs extintas."
  else
    .ok (.geojson u.sigla)

/-- `UF.historia` (`uf.py`, lines 700–705): raises `DAB_UFError` only for
the sigla `GB`; for `FN` substitutes the municipality code 260545 for the
UF's own `cod`; every other UF fetches `Historia` at `self.cod`. -/
def UFObj.historia (u : UFObj) : Except String RemoteCall :=
  if u.sigla = "GB" then
    .error "Método `historia` indisponível para a UF Guanabara."
  else if u.sigla = "FN" then
    .ok (.historia 260545)
  else
    .ok (.historia u.cod)

/-- `UF.malha` (`uf.py`, lines 734–736). -/
def UFObj.malha (u : UFObj) : Except String RemoteCall :=
  if u.extinto then
    .error "Método `malha` indisponível para UFs extintas."
  else
    .ok (.malha u.cod)

/-- `UF.municipios` (`uf.py`, lines 760–763): extinct UFs raise; otherwise
the method's remote effect is the `favoritos.geojson` fetch (the names are
then read off the GeoJSON features). -/
def UFObj.municipios (u : UFObj) : Except String RemoteCall :=
  if u.extinto then
    .error "Método `municipios` indisponível para UFs extintas."
  else
    .ok (.geojson u.sigla)

/-- `UF.populacao` (`uf.py`, lines 792–794). -/
def UFObj.populacao (u : UFObj) : Except String RemoteCall :=
  if u.extinto then
    .error "Método `populacao` indisponível para UFs extintas."
  else
    .ok (.populacao u.cod)

/-- `UF.senadores` (`uf.py`, lines 854–866); the filter arguments are
forwarded to `senado.lista_senadores` and do not affect the
extinct-UF check. -/
def UFObj.senadores (u : UFObj) : Except String RemoteCall :=
  if u.extinto then
    .error "Método `senadores` indisponível para UFs extintas."
  else
    .ok (.lista_senadores u.sigla)

/-! ## Helper lemmas -/

/-- Bind on a successful `Except` computation. -/
theorem exceptBind_ok {ε α β : Type} (a : α) (f : α → Except ε β) :
    (Except.ok a >>= f) = f a := rfl

/-- Bind on a failed `Except` computation. -/
theorem exceptBind_error {ε α β : Type} (e : ε) (f : α → Except ε β) :
    ((Except.error e : Except ε α) >>= f) = Except.error e := rfl

/-- A missing key reported by `firstMissing` makes the descent fail with
`MalformedResponseError` naming exactly that key. -/
theorem descend_error_of_firstMissing :
    ∀ (keys : List String) (raw : JSON) (path : List String) (k : String),
      firstMissing raw keys = some k →
      ∃ p, descend raw keys path = .error (.malformedResponse k p) := by
  intro keys
  induction keys with
  | nil => intro raw path k h; simp [firstMissing] at h
  | cons key rest ih =>
      intro raw path k h
      cases raw with
      | obj fields =>
          simp only [firstMissing] at h
          cases hl : lookupField key fields with
          | some v =>
              rw [hl] at h
              obtain ⟨p, hp⟩ := ih v (path ++ [key]) k h
              exact ⟨p, by simp [descend, hl, hp]⟩
          | none =>
              rw [hl] at h
              obtain rfl : k = key := (Option.some_inj.mp h).symm
              exact ⟨path, by simp [descend, hl]⟩
      | null => exact ⟨path, by simp [firstMissing] at h; subst h; simp [descend]⟩
      | bool b => exact ⟨path, by simp [firstMissing] at h; subst h; simp [descend]⟩
      | num n => exact ⟨path, by simp [firstMissing] at h; subst h; simp [descend]⟩
      | str s => exact ⟨path, by simp [firstMissing] at h; subst h; simp [descend]⟩
      | arr elems => exact ⟨path, by simp [firstMissing] at h; subst h; simp [descend]⟩
      | date y m d => exact ⟨path, by simp [firstMissing] at h; subst h; simp [descend]⟩

/-- When no key is missing the descent reaches a payload. -/
theorem descend_ok_of_firstMissing_none :
    ∀ (keys : List String) (raw : JSON) (path : List String),
      firstMissing raw keys = none →
      ∃ v, descend raw keys path = .ok v := by
  intro keys
  induction keys with
  | nil => intro raw path _; exact ⟨raw, by cases raw <;> rfl⟩
  | cons key rest ih =>
      intro raw path h
      cases raw with
      | obj fields =>
          simp only [firstMissing] at h
          cases hl : lookupField key fields with
          | some v =>
              rw [hl] at h
              obtain ⟨w, hw⟩ := ih v (path ++ [key]) h
              exact ⟨w, by simp [descend, hl, hw]⟩
          | none => rw [hl] at h; cases h
      | null => simp [firstMissing] at h
      | bool b => simp [firstMissing] at h
      | num n => simp [firstMissing] at h
      | str s => simp [firstMissing] at h
      | arr elems => simp [firstMissing] at h
      | date y m d => simp [firstMissing] at h

/-- A descent error propagates through `unpack` unchanged. -/
theorem unpack_error_of_descend (raw : JSON) (keys : List String)
    (ek : Option String) (id : String) (e : DABError)
    (h : descend raw keys [] = .error e) :
    unpack raw keys ek id = .error e := by
  simp [unpack, h, exceptBind_error]

/-! ## Claims about the Envelope Unpacker -/

/-- C1: the Envelope Unpacker descends one key per entry of `unpack_keys`
in order; if a key of the sequence is absent from the current mapping the
operation fails with `MalformedResponseError` naming that (first missing)
key, and when every key is found the walk yields a payload; in particular
`Frente.__init__` (unpack keys `["dados"]`) fails with
`MalformedResponseError` naming `"dados"` on an envelope lacking that
key. -/
theorem claim_C1_unpack_missing_key :
    (∀ (raw : JSON) (keys : List String) (ek : Option String) (id k : String),
        firstMissing raw keys = some k →
        ∃ p, unpack raw keys ek id = .error (.malformedResponse k p)) ∧
    (∀ (raw : JSON) (keys : List String),
        firstMissing raw keys = none →
        ∃ v, descend raw keys [] = .ok v) ∧
    (∀ (fields : List (String × JSON)) (cod : Int),
        lookupField "dados" fields = none →
        Frente.init (fun _ => .ok (.obj fields)) cod =
          .error (.malformedResponse "dados" [])) := by
  refine ⟨?_, ?_, ?_⟩
  · intro raw keys ek id k h
    obtain ⟨p, hp⟩ := descend_error_of_firstMissing keys raw [] k h
    exact ⟨p, unpack_error_of_descend raw keys ek id _ hp⟩
  · intro raw keys h
    exact descend_ok_of_firstMissing_none keys raw [] h
  · intro fields cod h
    simp [Frente.init, DAB_Base_init, exceptBind_ok, exceptBind_error, unpack,
      descend, h]

/-- C1 witness: the Frente configuration on the concrete envelope
`{"outro": null}`, which lacks `"dados"`. -/
theorem claim_C1_unpack_missing_key_witness :
    (∃ p, unpack (.obj [("outro", .null)]) ["dados"] (some "titulo") "54258" =
        .error (.malformedResponse "dados" p)) ∧
    (∃ v, descend (.obj [("dados", .obj [])]) ["dados"] [] = .ok v) ∧
    Frente.init (fun _ => .ok (.obj [("outro", .null)])) 54258 =
      .error (.malformedResponse "dados" []) :=
  ⟨claim_C1_unpack_missing_key.1 (.obj [("outro", .null)]) ["dados"]
      (some "titulo") "54258" "dados" rfl,
   claim_C1_unpack_missing_key.2.1 (.obj [("dados", .obj [])]) ["dados"] rfl,
   claim_C1_unpack_missing_key.2.2 [("outro", .null)] 54258 rfl⟩

/-- C2: after a successful descent, when the error check is requested and
the payload is a single mapping lacking the marker field, `unpack` fails
with `ResourceNotFoundError` carrying the requested identifier; with the
Frente configuration (`unpack_keys=["dados"]`, `error_key="titulo"`), the
envelope `{"dados": {}}` yields `ResourceNotFoundError` and the envelope
`{"dados": {"titulo": "X"}}` yields the payload `{"titulo": "X"}` without
error. -/
theorem claim_C2_resource_not_found :
    (∀ (raw : JSON) (keys : List String) (ek id : String)
        (fields : List (String × JSON)),
        descend raw keys [] = .ok (.obj fields) →
        lookupField ek fields = none →
        unpack raw keys (some ek) id = .error (.resourceNotFound id)) ∧
    (unpack (.obj [("dados", .obj [])]) ["dados"] (some "titulo") "54258" =
        .error (.resourceNotFound "54258")) ∧
    (unpack (.obj [("dados", .obj [("titulo", .str "X")])]) ["dados"]
        (some "titulo") "54258" =
      .ok (.obj [("titulo", .str "X")], false)) := by
  refine ⟨?_, rfl, rfl⟩
  intro raw keys ek id fields hd hl
  simp [unpack, hd, exceptBind_ok, hl]

/-- C2 witness: the general branch applied to the concrete Frente
scenario `{"dados": {}}`. -/
theorem claim_C2_resource_not_found_witness :
    unpack (.obj [("dados", .obj [])]) ["dados"] (some "titulo") "54258" =
      .error (.resourceNotFound "54258") :=
  claim_C2_resource_not_found.1 (.obj [("dados", .obj [])]) ["dados"]
    "titulo" "54258" [] rfl rfl

/-- C3: `lista_frentes` with a non-positive page number fails with
`InvalidParameterError` for the parameter `pagina`, and the result does
not depend on the transport — no HTTP call is issued on the failure
path. -/
theorem claim_C3_invalid_pagina :
    ∀ (t t2 : Transport) (leg : Option Int) (pagina : Int)
      (url index : Bool) (f : Formato),
      pagina ≤ 0 →
      lista_frentes t leg pagina url index f =
          .error (.invalidParameter "pagina") ∧
      lista_frentes t leg pagina url index f =
        lista_frentes t2 leg pagina url index f := by
  intro t t2 leg pagina url index f h
  constructor
  · simp [lista_frentes, if_pos h]
  · simp [lista_frentes, if_pos h]

/-- C3 witness: `pagina = 0` with an arbitrary concrete transport. -/
theorem claim_C3_invalid_pagina_witness :
    (0 : Int) ≤ 0 ∧
    lista_frentes (fun _ => .error .transportError) none 0 true false .dataframe =
        .error (.invalidParameter "pagina") ∧
    lista_frentes (fun _ => .error .transportError) none 0 true false .dataframe =
      lista_frentes (fun _ => .ok .null) none 0 true false .dataframe :=
  ⟨le_refl 0,
   claim_C3_invalid_pagina (fun _ => .error .transportError) (fun _ => .ok .null)
     none 0 true false .dataframe (le_refl 0)⟩

/-! ## Claims about the Tabular Normalizer -/

/-- The plain rename-map projection: keep the fields whose source name is
bound in the record, renamed, in map order. -/
def plainProject (record : List (String × JSON)) (m : List (String × String)) :
    List (String × JSON) :=
  m.filterMap fun p => (lookupField p.1 record).map fun v => (p.2, v)

/-- Unfolding `plainProject` one rename-map entry at a time. -/
theorem plainProject_cons (record : List (String × JSON)) (p : String × String)
    (m : List (String × String)) :
    plainProject record (p :: m) =
      match lookupField p.1 record with
      | none => plainProject record m
      | some v => (p.2, v) :: plainProject record m := by
  unfold plainProject
  simp only [List.filterMap_cons]
  cases lookupField p.1 record <;> rfl

/-- With no date columns, no URL columns and URLs retained, one record
normalizes to the plain rename-map projection. -/
theorem normalizeRecord_plain (record : List (String × JSON))
    (m : List (String × String)) :
    normalizeRecord record m [] [] true = plainProject record m := by
  unfold normalizeRecord plainProject
  apply List.filterMap_congr
  intro p _
  cases lookupField p.1 record <;> simp [List.contains]

/-- Looking a key up past a non-matching head binding. -/
theorem lookupField_cons_ne (k key : String) (v : JSON)
    (record : List (String × JSON)) (h : k ≠ key) :
    lookupField key ((k, v) :: record) = lookupField key record := by
  simp [lookupField, h]

/-- C4: with empty date and URL column sets and URLs retained, `normalize`
keeps exactly the fields whose source names are in the rename map's
domain, renamed per the map and emitted in the map's insertion order; a
record field whose name is outside the domain never affects the output
(silently dropped); and the concrete scenario
`{"id": 54258, "titulo": "Frente Mista"}` with map
`{"id": "codigo", "titulo": "titulo"}` yields exactly
`{"codigo": 54258, "titulo": "Frente Mista"}`. -/
theorem claim_C4_rename_projection :
    (∀ (record : List (String × JSON)) (m : List (String × String)),
        normalizeRecord record m [] [] true =
          m.filterMap fun p => (lookupField p.1 record).map fun v => (p.2, v)) ∧
    (∀ (record : List (String × JSON)) (m : List (String × String))
        (dcols ucols : List String) (iu : Bool) (k : String) (v : JSON),
        k ∉ m.map Prod.fst →
        normalizeRecord ((k, v) :: record) m dcols ucols iu =
          normalizeRecord record m dcols ucols iu) ∧
    (normalizeRecord [("id", .num 54258), ("titulo", .str "Frente Mista")]
        [("id", "codigo"), ("titulo", "titulo")] [] [] true =
      [("codigo", .num 54258), ("titulo", .str "Frente Mista")]) := by
  refine ⟨normalizeRecord_plain, ?_, rfl⟩
  intro record m dcols ucols iu k v hk
  unfold normalizeRecord
  apply List.filterMap_congr
  intro p hp
  have hne : k ≠ p.1 := by
    intro he
    exact hk (he ▸ List.mem_map_of_mem Prod.fst hp)
  rw [lookupField_cons_ne k p.1 v record hne]

/-- C4 witness: the unknown field `"extra"` is dropped from the scenario
record. -/
theorem claim_C4_rename_projection_witness :
    normalizeRecord [("id", .num 54258), ("titulo", .str "Frente Mista")]
        [("id", "codigo"), ("titulo", "titulo")] [] [] true =
      [("codigo", .num 54258), ("titulo", .str "Frente Mista")] ∧
    ("extra" ∉ [("id", "codigo"), ("titulo", "titulo")].map Prod.fst) ∧
    normalizeRecord
        (("extra", .str "x") :: [("id", .num 54258), ("titulo", .str "Frente Mista")])
        [("id", "codigo"), ("titulo", "titulo")] [] [] true =
      normalizeRecord [("id", .num 54258), ("titulo", .str "Frente Mista")]
        [("id", "codigo"), ("titulo", "titulo")] [] [] true :=
  ⟨claim_C4_rename_projection.2.2, by decide,
   claim_C4_rename_projection.2.1
     [("id", .num 54258), ("titulo", .str "Frente Mista")]
     [("id", "codigo"), ("titulo", "titulo")] [] [] true "extra" (.str "x")
     (by decide)⟩

/-- Every name surviving normalization passes the URL filter: it is never
a URL column while URLs are being stripped. -/
theorem normalizeRecord_names_pass_url_filter :
    ∀ (m : List (String × String)) (record : List (String × JSON))
      (dcols ucols : List String) (iu : Bool) (q : String × JSON),
      q ∈ normalizeRecord record m dcols ucols iu →
      (!iu && ucols.contains q.1) = false := by
  intro m
  induction m with
  | nil => intro record dcols ucols iu q hq; simp [normalizeRecord] at hq
  | cons p m ih =>
      intro record dcols ucols iu q hq
      rw [normalizeRecord, List.filterMap_cons] at hq
      cases hl : lookupField p.1 record with
      | none =>
          simp only [hl] at hq
          exact ih record dcols ucols iu q hq
      | some v =>
          simp only [hl] at hq
          by_cases hcu : (!iu && ucols.contains p.2) = true
          · simp only [hcu, if_true] at hq
            exact ih record dcols ucols iu q hq
          · simp only [hcu, if_false] at hq
            by_cases hdc : dcols.contains p.2 = true
            · simp only [hdc, if_true] at hq
              rcases List.mem_cons.mp hq with hq1 | hq2
              · rw [hq1]; simpa using hcu
              · exact ih record dcols ucols iu q hq2
            · simp only [hdc, if_false] at hq
              rcases List.mem_cons.mp hq with hq1 | hq2
              · rw [hq1]; simpa using hcu
              · exact ih record dcols ucols iu q hq2

/-- C5: when `include_url` is false, no field whose renamed name is in
`url_columns` survives normalization, whatever the date columns and
whatever the date-parsing outcome on its value. -/
theorem claim_C5_url_precedence :
    ∀ (record : List (String × JSON)) (m : List (String × String))
      (dcols ucols : List String) (dst : String),
      ucols.contains dst →
      dst ∉ (normalizeRecord record m dcols ucols false).map Prod.fst := by
  intro record m dcols ucols dst hu hmem
  obtain ⟨q, hq, hfst⟩ := List.mem_map.mp hmem
  have h := normalizeRecord_names_pass_url_filter m record dcols ucols false q hq
  rw [hfst] at h
  simp at h hu
  exact h hu

/-- C5 witness: the `Frente.membros` configuration with a field that is in
both the date columns and the URL columns (renamed name `"email"` added to
the date set), on a record carrying an unparseable value there. -/
theorem claim_C5_url_precedence_witness :
    (["uri", "partido_uri", "foto", "email"].contains "email" = true) ∧
    "email" ∉ (normalizeRecord [("email", .str "a@b.c")] Frente.membrosColsToRename
        ("email" :: ["data_inicio", "data_fim"])
        ["uri", "partido_uri", "foto", "email"] false).map Prod.fst :=
  ⟨by decide,
   claim_C5_url_precedence [("email", .str "a@b.c")] Frente.membrosColsToRename
     ("email" :: ["data_inicio", "data_fim"])
     ["uri", "partido_uri", "foto", "email"] "email" (by decide)⟩

/-- A date column that no rename-map entry produces has no effect on
normalization. -/
theorem normalizeRecord_date_col_absent (record : List (String × JSON))
    (m : List (String × String)) (dcols ucols : List String) (iu : Bool)
    (d : String) (hd : d ∉ m.map Prod.snd) :
    normalizeRecord record m (d :: dcols) ucols iu =
      normalizeRecord record m dcols ucols iu := by
  unfold normalizeRecord
  apply List.filterMap_congr
  intro p hp
  have hne : p.2 ≠ d := by
    intro he
    exact hd (he ▸ List.mem_map_of_mem Prod.snd hp)
  cases lookupField p.1 record with
  | none => rfl
  | some v =>
      simp only [List.contains_cons]
      have : (p.2 == d) = false := by simpa using hne
      rw [this]
      simp

/-- C6: date coercion applies only to date-column names actually produced
by renaming — a name outside the rename map's codomain is ignored without
error (in particular `lista_frentes`' configured date columns
`"data_inicio"` and `"date_fim"`, which its rename map never produces,
leave the output untouched) — and for a present date column the bound
value is the coercion of the source value, where an unparseable string
coerces to null rather than raising. -/
theorem claim_C6_date_coercion :
    (∀ (record : List (String × JSON)) (m : List (String × String))
        (dcols ucols : List String) (iu : Bool) (d : String),
        d ∉ m.map Prod.snd →
        normalizeRecord record m (d :: dcols) ucols iu =
          normalizeRecord record m dcols ucols iu) ∧
    (∀ (record : List (String × JSON)) (ucols : List String) (iu : Bool),
        normalizeRecord record listaFrentesColsToRename
            ["data_inicio", "date_fim"] ucols iu =
          normalizeRecord record listaFrentesColsToRename [] ucols iu) ∧
    (∀ s : String, tryParseDate s = none → coerceDate (.str s) = .null) ∧
    (∀ (record : List (String × JSON)) (m : List (String × String))
        (dcols ucols : List String) (src dst : String) (v : JSON),
        (src, dst) ∈ m → dcols.contains dst = true →
        lookupField src record = some v →
        (dst, coerceDate v) ∈ normalizeRecord record m dcols ucols true) := by
  refine ⟨normalizeRecord_date_col_absent, ?_, ?_, ?_⟩
  · intro record ucols iu
    rw [normalizeRecord_date_col_absent record listaFrentesColsToRename
      ["date_fim"] ucols iu "data_inicio" (by decide)]
    rw [normalizeRecord_date_col_absent record listaFrentesColsToRename
      [] ucols iu "date_fim" (by decide)]
  · intro s h
    simp [coerceDate, h]
  · intro record m dcols ucols src dst v hmem hdc hl
    unfold normalizeRecord
    apply List.mem_filterMap.mpr
    exact ⟨(src, dst), hmem, by simp only [hl]; rw [hdc]; simp⟩

/-- C6 witness: an out-of-codomain date column is ignored on a concrete
record; the unparseable string `"not a date"` coerces to null; and the
`Frente.membros` configuration coerces a present date column on a record
with an unparseable value. -/
theorem claim_C6_date_coercion_witness :
    ("x" ∉ [("id", "codigo")].map Prod.snd) ∧
    (normalizeRecord [("id", JSON.num 1)] [("id", "codigo")] ["x"] [] true =
      normalizeRecord [("id", JSON.num 1)] [("id", "codigo")] [] [] true) ∧
    tryParseDate "not a date" = none ∧
    coerceDate (.str "not a date") = .null ∧
    ("data_inicio", coerceDate (.str "not a date")) ∈
      normalizeRecord [("dataInicio", .str "not a date")] Frente.membrosColsToRename
        ["data_inicio", "data_fim"] ["uri", "partido_uri", "foto", "email"] true :=
  ⟨by decide,
   claim_C6_date_coercion.1 [("id", JSON.num 1)] [("id", "codigo")] [] [] true "x"
     (by decide),
   rfl,
   claim_C6_date_coercion.2.2.1 "not a date" rfl,
   claim_C6_date_coercion.2.2.2 [("dataInicio", .str "not a date")]
     Frente.membrosColsToRename ["data_inicio", "data_fim"]
     ["uri", "partido_uri", "foto", "email"] "dataInicio" "data_inicio"
     (.str "not a date") (by decide) (by decide) rfl⟩

/-! ## Claims about the Result Selector / orchestration -/

/-- In raw output mode the result of `get_and_format` does not depend on
the `url` and `index` parameters. -/
theorem get_and_format_json_params (raw : JSON) (keys : List String)
    (m : List (String × String)) (dcols ucols : List String)
    (u1 i1 u2 i2 : Bool) :
    get_and_format raw keys m dcols ucols u1 i1 .json =
      get_and_format raw keys m dcols ucols u2 i2 .json := rfl

/-- C7: in raw output mode (`formato='json'`) the returned value is the
unpacked payload verbatim (original upstream field names, no
normalization applied) and the tabular-normalization parameters
`url`/`index` have no effect — two calls differing only in those
parameters return the same value, both for `get_and_format` in general
and for `Frente.membros` and `lista_frentes`. -/
theorem claim_C7_raw_mode :
    (∀ (raw : JSON) (keys : List String) (m : List (String × String))
        (dcols ucols : List String) (u1 i1 u2 i2 : Bool),
        get_and_format raw keys m dcols ucols u1 i1 .json =
          get_and_format raw keys m dcols ucols u2 i2 .json) ∧
    (∀ (raw : JSON) (keys : List String) (m : List (String × String))
        (dcols ucols : List String) (u i : Bool) (payload : JSON) (islist : Bool),
        unpack raw keys none "" = .ok (payload, islist) →
        get_and_format raw keys m dcols ucols u i .json = .ok (.raw payload)) ∧
    (∀ (t : Transport) (cod : Int) (u1 i1 u2 i2 : Bool),
        Frente.membros t cod u1 i1 .json = Frente.membros t cod u2 i2 .json) ∧
    (∀ (t : Transport) (leg : Option Int) (pag : Int) (u1 i1 u2 i2 : Bool),
        lista_frentes t leg pag u1 i1 .json = lista_frentes t leg pag u2 i2 .json) := by
  refine ⟨get_and_format_json_params, ?_, ?_, ?_⟩
  · intro raw keys m dcols ucols u i payload islist h
    simp [get_and_format, h, exceptBind_ok]
  · intro t cod u1 i1 u2 i2
    rfl
  · intro t leg pag u1 i1 u2 i2
    rfl

/-- C7 witness: a concrete list envelope in raw mode comes back verbatim,
with `url`/`index` set to their non-default values. -/
theorem claim_C7_raw_mode_witness :
    unpack (.obj [("dados", .arr [.obj [("id", .num 7)]])]) ["dados"] none "" =
      .ok (.arr [.obj [("id", .num 7)]], true) ∧
    get_and_format (.obj [("dados", .arr [.obj [("id", .num 7)]])]) ["dados"]
        listaFrentesColsToRename ["data_inicio", "date_fim"] ["uri"] false true .json =
      .ok (.raw (.arr [.obj [("id", .num 7)]])) :=
  ⟨rfl,
   claim_C7_raw_mode.2.1 (.obj [("dados", .arr [.obj [("id", .num 7)]])]) ["dados"]
     listaFrentesColsToRename ["data_inicio", "date_fim"] ["uri"] false true
     (.arr [.obj [("id", .num 7)]]) true rfl⟩

/-- When a name has no binding in the source record, it has none in the
plainly projected record either (identity rename maps). -/
theorem lookupField_plain_none (r : List (String × JSON)) (s : String) :
    ∀ (m : List (String × String)), (∀ p ∈ m, p.2 = p.1) →
      lookupField s r = none →
      lookupField s (plainProject r m) = none := by
  intro m
  induction m with
  | nil => intro _ _; rfl
  | cons p m ih =>
      intro hid hs
      have hp2 : p.2 = p.1 := hid p (List.mem_cons_self p m)
      have htail := ih (fun q hq => hid q (List.mem_cons_of_mem p hq)) hs
      rw [plainProject_cons]
      cases hl : lookupField p.1 r with
      | none => exact htail
      | some v =>
          have hne : p.2 ≠ s := by
            intro he
            rw [hp2] at he
            rw [he, hs] at hl
            cases hl
          rw [lookupField_cons_ne p.2 s v _ hne]
          exact htail

/-- For a name in the domain of an identity rename map, lookup in the
plainly projected record agrees with lookup in the source record. -/
theorem lookupField_plain_domain (r : List (String × JSON)) (s : String) :
    ∀ (m : List (String × String)), (∀ p ∈ m, p.2 = p.1) →
      s ∈ m.map Prod.fst →
      lookupField s (plainProject r m) = lookupField s r := by
  intro m
  induction m with
  | nil => intro _ hmem; cases hmem
  | cons p m ih =>
      intro hid hmem
      have hp2 : p.2 = p.1 := hid p (List.mem_cons_self p m)
      have hidtail : ∀ q ∈ m, q.2 = q.1 := fun q hq => hid q (List.mem_cons_of_mem p hq)
      rw [plainProject_cons]
      by_cases hsp : s = p.1
      · cases hl : lookupField p.1 r with
        | none =>
            rw [hsp, hl]
            exact lookupField_plain_none r p.1 m hidtail hl
        | some v =>
            rw [hsp, hl, hp2]
            simp [lookupField]
      · have hmem2 : s ∈ m.map Prod.fst := by
          rw [List.map_cons] at hmem
          rcases List.mem_cons.mp hmem with h1 | h1
          · exact absurd h1 hsp
          · exact h1
        cases hl : lookupField p.1 r with
        | none => exact ih hidtail hmem2
        | some v =>
            rw [lookupField_cons_ne p.2 s v _ (by rw [hp2]; exact fun h => hsp h.symm)]
            exact ih hidtail hmem2

/-- `plainProject` only reads the record through lookups of domain
names. -/
theorem plainProject_congr (r1 r2 : List (String × JSON))
    (m : List (String × String))
    (h : ∀ s ∈ m.map Prod.fst, lookupField s r1 = lookupField s r2) :
    plainProject r1 m = plainProject r2 m := by
  unfold plainProject
  apply List.filterMap_congr
  intro p hp
  rw [h p.1 (List.mem_map_of_mem Prod.fst hp)]

/-- C8 counterexample: with the rename-map entry `("id", "codigo")` a
second application of `normalize` looks the source name `"id"` up in the
already-renamed record and drops the field, so applying `normalize` twice
differs from applying it once. -/
theorem claim_C8_counterexample_not_idempotent :
    ¬ (normalizeRecords
          (normalizeRecords [[("id", JSON.num 1)]] [("id", "codigo")] [] [] true)
          [("id", "codigo")] [] [] true =
        normalizeRecords [[("id", JSON.num 1)]] [("id", "codigo")] [] [] true) := by
  intro h
  have h2 : ([([] : List (String × JSON))] : List (List (String × JSON))) =
      [[("codigo", JSON.num 1)]] := h
  simp at h2

/-- C8 (amended): `normalize` with empty date and URL column sets, URLs
retained and no index column is idempotent whenever the rename map sends
every source name to itself; for a properly renaming entry such as
`("id", "codigo")` a second application drops the renamed field, so
idempotence does not hold for arbitrary rename maps (see the
counterexample). -/
theorem claim_C8_amended_idempotent :
    ∀ (records : List (List (String × JSON))) (m : List (String × String)),
      (∀ p ∈ m, p.2 = p.1) →
      normalizeRecords (normalizeRecords records m [] [] true) m [] [] true =
        normalizeRecords records m [] [] true := by
  intro records m hid
  unfold normalizeRecords
  rw [List.map_map]
  apply List.map_congr_left
  intro r _
  show normalizeRecord (normalizeRecord r m [] [] true) m [] [] true =
    normalizeRecord r m [] [] true
  simp only [normalizeRecord_plain]
  exact plainProject_congr (plainProject r m) r m fun s hs =>
    lookupField_plain_domain r s m hid hs

/-- C8 witness for the amended claim: the identity rename map on
`membros`-shaped fields is idempotent on a concrete record. -/
theorem claim_C8_amended_idempotent_witness :
    (∀ p ∈ [("titulo", "titulo"), ("uri", "uri")], p.2 = p.1) ∧
    normalizeRecords
        (normalizeRecords [[("titulo", JSON.str "X"), ("uri", JSON.str "u")]]
          [("titulo", "titulo"), ("uri", "uri")] [] [] true)
        [("titulo", "titulo"), ("uri", "uri")] [] [] true =
      normalizeRecords [[("titulo", JSON.str "X"), ("uri", JSON.str "u")]]
        [("titulo", "titulo"), ("uri", "uri")] [] [] true :=
  ⟨by decide,
   claim_C8_amended_idempotent [[("titulo", JSON.str "X"), ("uri", JSON.str "u")]]
     [("titulo", "titulo"), ("uri", "uri")] (by decide)⟩

/-! ## Claims about `uf.py` -/

/-- True when a `UF` method call raised `DAB_UFError` instead of issuing
its remote call. -/
def raisesUFError : Except String RemoteCall → Bool
  | .error _ => true
  | .ok _ => false

/-- The ten field names of every `_UF_INFO` entry, in source order. -/
def ufFields : List String :=
  ["nome", "cod", "area", "capital", "extinto", "gentilico", "lema", "regiao",
   "governador", "vice_governador"]

/-- A successful `lookupInfo` pinpoints a table entry. -/
theorem lookupInfo_mem :
    ∀ (l : List (String × List (String × PyVal))) (s : String)
      (e : List (String × PyVal)),
      lookupInfo s l = some e → (s, e) ∈ l := by
  intro l
  induction l with
  | nil => intro s e h; cases h
  | cons p l ih =>
      intro s e h
      rw [lookupInfo] at h
      by_cases hs : p.1 = s
      · rw [if_pos hs] at h
        obtain rfl : p.2 = e := Option.some_inj.mp h
        obtain ⟨p1, p2⟩ := p
        obtain rfl : p1 = s := hs
        exact List.mem_cons_self _ _
      · rw [if_neg hs] at h
        exact List.mem_cons_of_mem p (ih s e h)

/-- Every `_UF_INFO` entry lists exactly the ten canonical fields, in
order. -/
theorem uf_info_fields_all : ∀ p ∈ UF_INFO, p.2.map Prod.fst = ufFields := by
  decide

/-- C10: every entry of the static `_UF_INFO` table defines exactly the
ten fields `nome`, `cod`, `area`, `capital`, `extinto`, `gentilico`,
`lema`, `regiao`, `governador`, `vice_governador`; exactly the entries
`FN` and `GB` have `extinto = True`; and every successfully constructed
`UF` object carries its sigla plus all ten attributes. -/
theorem claim_C10_table_invariant :
    (∀ p ∈ UF_INFO, p.2.map Prod.fst = ufFields) ∧
    (∀ p ∈ UF_INFO,
        (lookupAttr "extinto" p.2 = some (.bool true) ↔ (p.1 = "FN" ∨ p.1 = "GB"))) ∧
    (∀ (sigla : String) (u : UFObj), UF.init sigla = some u →
        u.sigla = sigla ∧ u.attrs.map Prod.fst = ufFields) := by
  refine ⟨uf_info_fields_all, by decide, ?_⟩
  intro sigla u h
  rw [UF.init] at h
  cases hl : lookupInfo sigla UF_INFO with
  | none => rw [hl] at h; cases h
  | some e =>
      rw [hl] at h
      obtain rfl : UFObj.mk sigla e = u := Option.some_inj.mp h
      exact ⟨rfl, uf_info_fields_all (sigla, e) (lookupInfo_mem UF_INFO sigla e hl)⟩

/-- C10 witness: the `SP` entry and the `UF` object constructed from
it. -/
theorem claim_C10_table_invariant_witness :
    (UF.init "SP").isSome = true ∧
    ((UF.init "SP").getD ⟨"SP", []⟩).sigla = "SP" ∧
    ((UF.init "SP").getD ⟨"SP", []⟩).attrs.map Prod.fst = ufFields := by
  have hs : (UF.init "SP").isSome = true := by decide
  have he : UF.init "SP" = some ((UF.init "SP").getD ⟨"SP", []⟩) := by
    cases hinit : UF.init "SP" with
    | none => rw [hinit] at hs; cases hs
    | some u => rfl
  exact ⟨hs, claim_C10_table_invariant.2.2 "SP" ((UF.init "SP").getD ⟨"SP", []⟩) he⟩

/-- C9: `historia` is the only `UF` method with asymmetric extinct-UF
handling.  Every other remote-data method (`densidade`, `deputados`,
`galeria`, `geojson`, `malha`, `municipios`, `populacao`, `senadores`)
raises `DAB_UFError` on every table entry whose `extinto` field is true,
while `historia` raises only for Guanabara (`GB`): for Fernando de
Noronha (`FN`, own `cod` 20) it succeeds with the substitute localidade
260545, and for every non-`GB` entry it succeeds, fetching the UF's own
`cod` whenever the sigla is not `FN`. -/
theorem claim_C9_historia_asymmetry :
    (∀ p ∈ UF_INFO, lookupAttr "extinto" p.2 = some (.bool true) →
        raisesUFError (UFObj.densidade ⟨p.1, p.2⟩) = true ∧
        raisesUFError (UFObj.deputados ⟨p.1, p.2⟩) = true ∧
        raisesUFError (UFObj.galeria ⟨p.1, p.2⟩) = true ∧
        raisesUFError (UFObj.geojson ⟨p.1, p.2⟩) = true ∧
        raisesUFError (UFObj.malha ⟨p.1, p.2⟩) = true ∧
        raisesUFError (UFObj.municipios ⟨p.1, p.2⟩) = true ∧
        raisesUFError (UFObj.populacao ⟨p.1, p.2⟩) = true ∧
        raisesUFError (UFObj.senadores ⟨p.1, p.2⟩) = true) ∧
    ((UF.init "GB").map UFObj.historia =
      some (.error "Método `historia` indisponível para a UF Guanabara.")) ∧
    ((UF.init "FN").map UFObj.historia = some (.ok (.historia 260545))) ∧
    ((UF.init "FN").map UFObj.cod = some 20) ∧
    (∀ p ∈ UF_INFO, p.1 ≠ "GB" →
        raisesUFError (UFObj.historia ⟨p.1, p.2⟩) = false) ∧
    (∀ p ∈ UF_INFO, p.1 ≠ "GB" → p.1 ≠ "FN" →
        UFObj.historia ⟨p.1, p.2⟩ = .ok (.historia (UFObj.cod ⟨p.1, p.2⟩))) := by
  refine ⟨by decide, by decide, by decide, by decide, by decide, by decide⟩

/-- C9 witness: the extinct entry `FN` (all eight symmetric methods raise)
and the live entry `SP` (historia fetches the UF's own cod). -/
theorem claim_C9_historia_asymmetry_witness :
    (("FN", (lookupInfo "FN" UF_INFO).getD []) ∈ UF_INFO ∧
     raisesUFError (UFObj.densidade ⟨"FN", (lookupInfo "FN" UF_INFO).getD []⟩) = true ∧
     raisesUFError (UFObj.senadores ⟨"FN", (lookupInfo "FN" UF_INFO).getD []⟩) = true) ∧
    (UFObj.historia ⟨"SP", (lookupInfo "SP" UF_INFO).getD []⟩ =
      .ok (.historia (UFObj.cod ⟨"SP", (lookupInfo "SP" UF_INFO).getD []⟩))) := by
  have hsFN : (lookupInfo "FN" UF_INFO).isSome = true := by decide
  have heFN : lookupInfo "FN" UF_INFO = some ((lookupInfo "FN" UF_INFO).getD []) := by
    cases h : lookupInfo "FN" UF_INFO with
    | none => rw [h] at hsFN; cases hsFN
    | some e => rfl
  have hsSP : (lookupInfo "SP" UF_INFO).isSome = true := by decide
  have heSP : lookupInfo "SP" UF_INFO = some ((lookupInfo "SP" UF_INFO).getD []) := by
    cases h : lookupInfo "SP" UF_INFO with
    | none => rw [h] at hsSP; cases hsSP
    | some e => rfl
  have hmemFN := lookupInfo_mem UF_INFO "FN" _ heFN
  have hmemSP := lookupInfo_mem UF_INFO "SP" _ heSP
  have h1 := claim_C9_historia_asymmetry.1 ("FN", (lookupInfo "FN" UF_INFO).getD [])
    hmemFN (by decide)
  have h2 := claim_C9_historia_asymmetry.2.2.2.2.2
    ("SP", (lookupInfo "SP" UF_INFO).getD []) hmemSP (by decide) (by decide)
  exact ⟨⟨hmemFN, h1.1, h1.2.2.2.2.2.2.2⟩, h2⟩

end DAB
